import Mathlib

/-!
Verification of the mirror-clock task generator (`src/generator.py`).

The Python source is shallowly embedded: pure arithmetic becomes functions on
`Nat`/`Int`/`Rat`; raster images (PIL `Image`) are modelled as a structure with
width, height and an integer RGB pixel function; the PIL primitives used by the
generator (`Image.blend`, `transpose(FLIP_LEFT_RIGHT)`, `resize`) are given
executable semantics matching their documented behaviour; random draws
(`random.randint`, `random.choice`) become explicit oracle parameters
constrained by range hypotheses, so theorems quantify over every possible
outcome of the draws.
-/

namespace MirrorClock

/-- A raster image: width, height, and an RGB pixel function.  Models a PIL
`Image` in mode RGB; `px x y` is the (r,g,b) value at column `x`, row `y`.
Pixels outside the `width × height` raster are junk values of the model. -/
@[ext]
structure Img where
  width : Nat
  height : Nat
  px : Nat → Nat → ℤ × ℤ × ℤ

/-- PIL `Image.size`: the `(width, height)` pair. -/
def Img.size (img : Img) : Nat × Nat := (img.width, img.height)

/-- One channel of PIL `Image.blend(im1, im2, alpha)`:
`out = im1*(1-alpha) + im2*alpha`, rounded back to an integer sample. -/
def blendChan (alpha : ℚ) (p q : ℤ) : ℤ :=
  round ((1 - alpha) * (p : ℚ) + alpha * (q : ℚ))

/-- PIL `Image.blend(im1, im2, alpha)`: per-pixel, per-channel linear
interpolation between two same-size images; the output has `im1`'s size. -/
def Image.blend (a b : Img) (alpha : ℚ) : Img :=
  { width := a.width
    height := a.height
    px := fun x y =>
      (blendChan alpha (a.px x y).1 (b.px x y).1,
       blendChan alpha (a.px x y).2.1 (b.px x y).2.1,
       blendChan alpha (a.px x y).2.2 (b.px x y).2.2) }

/-- PIL `transpose(Image.FLIP_LEFT_RIGHT)`: horizontal mirror.  The pixel at
column `x` of the result is the pixel at column `width-1-x` of the source;
dimensions are unchanged.  Used at `generator.py:194` to build the mirrored
clock image. -/
def flipLeftRight (img : Img) : Img :=
  { width := img.width
    height := img.height
    px := fun x y => img.px (img.width - 1 - x) y }

/-- PIL `resize` to a target `(width, height)`, modelled with nearest-neighbour
sampling (the LANCZOS filter's pixel values are irrelevant to every claim;
only the output dimensions matter, and those match PIL exactly). -/
def Image.resize (img : Img) (sz : Nat × Nat) : Img :=
  { width := sz.1
    height := sz.2
    px := fun x y => img.px (x * img.width / sz.1) (y * img.height / sz.2) }

/-- The crossfade alpha of `generator.py:269/283`:
`alpha = i / (20 - 1) if 20 > 1 else 1.0`. -/
def crossfadeAlpha (i : Nat) : ℚ :=
  if (20 : Nat) > 1 then (i : ℚ) / (20 - 1) else 1.0

/-- The frame-building step of `TaskGenerator._generate_video`
(`generator.py:256-289`): hold the mirrored image 15 frames, crossfade
mirrored → original over 20 frames, hold the original 15 frames, crossfade
original → future over 20 frames, hold the future image 15 frames.
RGBA/RGB conversions are identities of the RGB model. -/
def generate_video_frames (first_image final_image original_image : Img) : List Img :=
  let mirrored_rgba := first_image
  let original_rgba :=
    if mirrored_rgba.size ≠ original_image.size then
      Image.resize original_image mirrored_rgba.size
    else original_image
  let future_rgba :=
    if original_rgba.size ≠ final_image.size then
      Image.resize final_image original_rgba.size
    else final_image
  List.replicate 15 first_image ++
    (List.range 20).map (fun i => Image.blend mirrored_rgba original_rgba (crossfadeAlpha i)) ++
    List.replicate 15 original_image ++
    (List.range 20).map (fun i => Image.blend original_rgba future_rgba (crossfadeAlpha i)) ++
    List.replicate 15 final_image

/-- `TaskGenerator._add_time` (`generator.py:355-375`): minute overflow carries
into hours, hours wrap modulo 24.  Arguments are naturals: every call site
passes non-negative values, on which Python's `//` and `%` agree with `Nat`
division and modulus. -/
def add_time (hours minutes add_hours add_minutes : Nat) : Nat × Nat :=
  let total_minutes := minutes + add_minutes
  let extra_hours := total_minutes / 60
  let new_minutes := total_minutes % 60
  let new_hours := (hours + add_hours + extra_hours) % 24
  (new_hours, new_minutes)

/-- Oracle outcomes for the random draws inside
`TaskGenerator._generate_random_time` (`generator.py:300-323`).  Each field
records the value one `random.randint`/`random.choice` call would return;
range constraints are stated as hypotheses in the theorems. -/
structure TimeDraws where
  hourDraw : Nat
  mediumMinuteDraw : Nat
  hardMinuteDraw : Nat

/-- The 5-minute choices of `generator.py:317`. -/
def fiveMinuteChoices : List Nat := [0, 5, 10, 15, 20, 25, 30, 35, 40, 45, 50, 55]

/-- `TaskGenerator._generate_random_time` (`generator.py:300-323`), with the
random draws supplied by the oracle `d`.  The trailing `else` branch is the
source's `else:  # hard`. -/
def generate_random_time (difficulty : String) (d : TimeDraws) : Nat × Nat :=
  if difficulty = "easy" then
    (d.hourDraw, 0)
  else if difficulty = "medium" then
    (d.hourDraw, d.mediumMinuteDraw)
  else
    (d.hourDraw, d.hardMinuteDraw)

/-- Oracle outcomes for the random draws inside
`TaskGenerator._generate_time_delta` (`generator.py:325-353`). -/
structure DeltaDraws where
  easyHoursDraw : Nat
  mediumHoursDraw : Nat
  mediumMinutesDraw : Nat
  hardHoursDraw : Nat
  hardMinutesDraw : Nat
  hardFixupDraw : Nat

/-- `TaskGenerator._generate_time_delta` (`generator.py:325-353`), with the
random draws supplied by the oracle `d`.  The zero-delta fixups of the medium
and hard branches are kept verbatim. -/
def generate_time_delta (difficulty : String) (d : DeltaDraws) : Nat × Nat :=
  if difficulty = "easy" then
    (d.easyHoursDraw, 0)
  else if difficulty = "medium" then
    let hours := d.mediumHoursDraw
    let minutes := d.mediumMinutesDraw
    if hours = 0 ∧ minutes = 0 then (1, minutes) else (hours, minutes)
  else
    let hours := d.hardHoursDraw
    let minutes := d.hardMinutesDraw
    if hours = 0 ∧ minutes = 0 then (hours, d.hardFixupDraw) else (hours, minutes)

/-- The difficulty enumeration order of `_generate_balanced_dataset`
(`generator.py:404`). -/
def difficulties : List String := ["easy", "medium", "hard"]

/-- `{task_counter:04d}`: zero-padded four-digit task number
(`generator.py:420`). -/
def padTaskId (n : Nat) : String :=
  let s := toString n
  String.mk (List.replicate (4 - s.length) '0') ++ s

/-- The per-difficulty loop of `TaskGenerator._generate_balanced_dataset`
(`generator.py:411-427`): each record is the pair (difficulty, task counter).
`remaining` is an `Int` because the source decrements it unconditionally,
below zero. -/
def balancedGroups : List String → Nat → Int → Nat → List (String × Nat)
  | [], _, _, _ => []
  | difficulty :: rest, samples_per_difficulty, remaining, task_counter =>
    let count := samples_per_difficulty + (if remaining > 0 then 1 else 0)
    (List.range count).map (fun i => (difficulty, task_counter + i)) ++
      balancedGroups rest samples_per_difficulty (remaining - 1) (task_counter + count)

/-- `TaskGenerator._generate_balanced_dataset` (`generator.py:402-429`),
abstracted to the (difficulty, task counter) pair of each generated record. -/
def generate_balanced_dataset (num_samples : Nat) : List (String × Nat) :=
  let samples_per_difficulty := num_samples / difficulties.length
  let remaining := (num_samples % difficulties.length : Int)
  balancedGroups difficulties samples_per_difficulty remaining 0

/-- One drawn clock hand of `ClockRenderer._draw_hand`: its angle in degrees
(0 = 12 o'clock, clockwise), length, width and colour. -/
structure HandSpec where
  angle : ℚ
  length : Nat
  width : Nat
  color : String

/-- The hand geometry computed by `ClockRenderer.draw_clock`
(`generator.py:118-150`) at face size `image_size`: the 12-hour conversion,
both hand angles (the float constants 0.5 and 6 are exact in binary floating
point for minutes 0..59, so `ℚ` models them exactly), and the draw order
(minute hand first, hour hand second, on top). -/
def draw_clock_hands (image_size hours minutes : Nat) : List HandSpec :=
  let clock_radius := image_size * 4 / 10
  let hour_hand_length := clock_radius * 5 / 10
  let minute_hand_length := clock_radius * 7 / 10
  let hours_12 := hours % 12
  let hour_angle : ℚ := (hours_12 * 30 : ℚ) + (minutes : ℚ) * (1 / 2)
  let minute_angle : ℚ := (minutes * 6 : ℚ)
  let hand_width := max 3 (image_size * 12 / 1000)
  [{ angle := minute_angle, length := minute_hand_length, width := hand_width,
     color := "#666666" },
   { angle := hour_angle, length := hour_hand_length, width := hand_width + 2,
     color := "#333333" }]

/-- `TaskGenerator._format_time_delta` (`generator.py:377-393`). -/
def format_time_delta (hours minutes : Nat) : String :=
  if hours = 0 then
    toString minutes ++ " minute" ++ (if minutes ≠ 1 then "s" else "")
  else if minutes = 0 then
    toString hours ++ " hour" ++ (if hours ≠ 1 then "s" else "")
  else
    toString hours ++ " hour" ++ (if hours ≠ 1 then "s" else "") ++ " and " ++
      toString minutes ++ " minute" ++ (if minutes ≠ 1 then "s" else "")

/-- The prompt templates of `prompts.py:17-41`, with `{time_delta}` as the
substitution placeholder. -/
def PROMPTS : List String :=
  ["This is a mirrored clock. Follow these steps:\nStep 1: Look at the mirrored clock shown in the image.\nStep 2: Flip it horizontally to determine the original time.\nStep 3: Add {time_delta} to the original time.\nWhat time will the original clock show after {time_delta}?",
   "The image shows a horizontally flipped clock. Solve this step by step:\nStep 1: Identify the mirrored clock in the image.\nStep 2: Unmirror it to find the original time.\nStep 3: Calculate the new time after {time_delta} passes.\nWhat will be the final time?",
   "This mirror-reflected clock needs to advance {time_delta}. Solve in steps:\nStep 1: Observe the mirrored clock face.\nStep 2: Flip it back to reveal the original time.\nStep 3: Add {time_delta} to get the future time.\nShow what the original clock will display after {time_delta}.",
   "From this mirrored clock, determine the answer step by step:\nStep 1: Examine the mirrored clock image.\nStep 2: Determine the original time by unmirroring the clock.\nStep 3: Add {time_delta} to the original time.\nWhat is the result?"]

/-- `get_prompt` (`prompts.py:44-55`): pick a template (`random.choice`,
modelled by the oracle index `promptChoice`) and substitute the delta string
for the placeholder. -/
def get_prompt (promptChoice : Nat) (time_delta : String) : String :=
  let prompt_template := (PROMPTS.get? (promptChoice % PROMPTS.length)).getD ""
  prompt_template.replace "\x7btime_delta\x7d" time_delta

/-- Modelled from the spec: the external video encoder
(`core.video_utils.VideoGenerator.create_video_from_frames`, whose source is
not under `src/`) — "accepts an ordered sequence of raster frames plus fps and
a target file path; returns the written file's path on success, or a failure
indicator (never raises into the core)".  `none` is the failure indicator. -/
def Encoder : Type := List Img → String → Option String

/-- `TaskGenerator._generate_video` (`generator.py:223-294`): build the frame
sequence and invoke the encoder; a falsy encoder result becomes `None`.  The
temporary-directory path construction is modelled as string concatenation. -/
def generate_video (video_generator : Option Encoder) (domain : String)
    (first_image final_image : Img) (task_id : String) (original_image : Img) :
    Option String :=
  match video_generator with
  | none => none
  | some encode =>
    let video_path := "/tmp/" ++ domain ++ "_videos/" ++ task_id ++ "_ground_truth.mp4"
    let frames := generate_video_frames first_image final_image original_image
    match encode frames video_path with
    | none => none
    | some result => some result

/-- The `TaskPair` record (`core.schemas`, fields as constructed at
`generator.py:210-217`). -/
structure TaskPair where
  task_id : String
  domain : String
  prompt : String
  first_image : Img
  final_image : Img
  ground_truth_video : Option String

/-- The configuration fields of `TaskConfig` that `generate_task_pair`
reads (`config.py`, `core.GenerationConfig`). -/
structure TaskConfig where
  difficulty : Option String
  domain : String
  generate_videos : Bool

/-- Oracle outcomes for the random draws of one `generate_task_pair` call. -/
structure TaskDraws where
  difficultyChoice : String
  time : TimeDraws
  delta : DeltaDraws
  promptChoice : Nat

/-- `TaskGenerator.generate_task_pair` (`generator.py:173-217`).  The clock
renderer is a parameter `render` standing for
`self.clock_renderer.draw_clock` (its pixel output is PIL rasterisation,
never inspected by a claim); the video encoder, when available, is the
injected `video_generator`. -/
def generate_task_pair (config : TaskConfig) (video_generator : Option Encoder)
    (render : Nat → Nat → Img) (draws : TaskDraws) (task_id : String) : TaskPair :=
  let difficulty :=
    match config.difficulty with
    | some d => d
    | none => draws.difficultyChoice
  let hm := generate_random_time difficulty draws.time
  let dd := generate_time_delta difficulty draws.delta
  let fut := add_time hm.1 hm.2 dd.1 dd.2
  let original_image := render hm.1 hm.2
  let mirrored_image := flipLeftRight original_image
  let future_image := render fut.1 fut.2
  let video_path :=
    if config.generate_videos ∧ video_generator.isSome then
      generate_video video_generator config.domain mirrored_image future_image
        task_id original_image
    else none
  let time_delta_str := format_time_delta dd.1 dd.2
  let prompt := get_prompt draws.promptChoice time_delta_str
  { task_id := task_id
    domain := config.domain
    prompt := prompt
    first_image := mirrored_image
    final_image := future_image
    ground_truth_video := video_path }

/-- A concrete 2×2 test image (uniform colour). -/
def testImg : Img := ⟨2, 2, fun _ _ => (10, 20, 30)⟩

/-- A second concrete 2×2 test image (coordinate gradient). -/
def testImgB : Img := ⟨2, 2, fun x y => ((x : ℤ), (y : ℤ), 0)⟩

/-- A concrete configuration with video generation enabled. -/
def testConfig : TaskConfig := ⟨none, "mirror_clock", true⟩

/-- An encoder that always reports failure. -/
def failEncoder : Encoder := fun _ _ => none

/-! ## Theorems -/

/-- C2: `_add_time` keeps the minute component in [0,59] and the hour
component in [0,23], computes new_minute = (minute + delta_minutes) % 60 and
new_hour = (hour + delta_hours + (minute + delta_minutes) // 60) % 24, and in
particular maps (23,45) + (1,30) to (1,15). -/
theorem add_time_spec (hour minute delta_hours delta_minutes : Nat)
    (_hh : hour ≤ 23) (_hm : minute ≤ 59) (_hdm : delta_minutes ≤ 59) :
    (add_time hour minute delta_hours delta_minutes).2 ≤ 59 ∧
    (add_time hour minute delta_hours delta_minutes).1 ≤ 23 ∧
    add_time hour minute delta_hours delta_minutes =
      ((hour + delta_hours + (minute + delta_minutes) / 60) % 24,
       (minute + delta_minutes) % 60) ∧
    add_time 23 45 1 30 = (1, 15) := by
  refine ⟨?_, ?_, rfl, by decide⟩ <;> simp [add_time] <;> omega

/-- Witness for C2 at (hour, minute, delta) = (23, 45, (1, 30)). -/
theorem add_time_spec_witness :
    (add_time 23 45 1 30).2 ≤ 59 ∧ (add_time 23 45 1 30).1 ≤ 23 ∧
    add_time 23 45 1 30 =
      ((23 + 1 + (45 + 30) / 60) % 24, (45 + 30) % 60) ∧
    add_time 23 45 1 30 = (1, 15) :=
  add_time_spec 23 45 1 30 (by decide) (by decide) (by decide)

/-- C6: `_format_time_delta` omits the hour clause when hours = 0, omits the
minute clause when minutes = 0, joins both clauses with " and " when both are
positive, pluralizes each unit word exactly when its value differs from 1,
and maps (0,1) to "1 minute", (2,0) to "2 hours", (1,1) to
"1 hour and 1 minute", (1,30) to "1 hour and 30 minutes". -/
theorem format_time_delta_spec (hours minutes : Nat)
    (hnz : ¬(hours = 0 ∧ minutes = 0)) :
    (hours = 0 → format_time_delta hours minutes =
      toString minutes ++ " minute" ++ (if minutes ≠ 1 then "s" else "")) ∧
    (minutes = 0 → format_time_delta hours minutes =
      toString hours ++ " hour" ++ (if hours ≠ 1 then "s" else "")) ∧
    (0 < hours → 0 < minutes → format_time_delta hours minutes =
      (toString hours ++ " hour" ++ (if hours ≠ 1 then "s" else "")) ++ " and " ++
      (toString minutes ++ " minute" ++ (if minutes ≠ 1 then "s" else ""))) ∧
    format_time_delta 0 1 = "1 minute" ∧
    format_time_delta 2 0 = "2 hours" ∧
    format_time_delta 1 1 = "1 hour and 1 minute" ∧
    format_time_delta 1 30 = "1 hour and 30 minutes" := by
  refine ⟨?_, ?_, ?_, by decide, by decide, by decide, by decide⟩
  · intro h0
    simp [format_time_delta, h0]
  · intro m0
    have h0 : hours ≠ 0 := by
      intro h
      exact hnz ⟨h, m0⟩
    simp [format_time_delta, h0, m0]
  · intro hpos mpos
    have h0 : hours ≠ 0 := Nat.pos_iff_ne_zero.mp hpos
    have m0 : minutes ≠ 0 := Nat.pos_iff_ne_zero.mp mpos
    simp [format_time_delta, h0, m0, String.append_assoc]

/-- Witness for C6 at (hours, minutes) = (1, 30). -/
theorem format_time_delta_spec_witness :
    (1 = 0 → format_time_delta 1 30 =
      toString 30 ++ " minute" ++ (if 30 ≠ 1 then "s" else "")) ∧
    (30 = 0 → format_time_delta 1 30 =
      toString 1 ++ " hour" ++ (if 1 ≠ 1 then "s" else "")) ∧
    (0 < 1 → 0 < 30 → format_time_delta 1 30 =
      (toString 1 ++ " hour" ++ (if 1 ≠ 1 then "s" else "")) ++ " and " ++
      (toString 30 ++ " minute" ++ (if 30 ≠ 1 then "s" else ""))) ∧
    format_time_delta 0 1 = "1 minute" ∧
    format_time_delta 2 0 = "2 hours" ∧
    format_time_delta 1 1 = "1 hour and 1 minute" ∧
    format_time_delta 1 30 = "1 hour and 30 minutes" :=
  format_time_delta_spec 1 30 (by decide)

/-- C7: `draw_clock` computes the hour-hand angle as
(hour mod 12)·30 + minute·0.5 degrees and the minute-hand angle as minute·6
degrees (the minute hand is drawn first, the hour hand second); the hour-hand
angle is 90° at (3,0) and 15° at (12,30) and (0,30). -/
theorem draw_clock_hand_angles :
    (∀ image_size hours minutes : Nat, hours ≤ 23 → minutes ≤ 59 →
      (draw_clock_hands image_size hours minutes).map HandSpec.angle =
        [(minutes : ℚ) * 6,
         ((hours % 12 : Nat) : ℚ) * 30 + (minutes : ℚ) * (1 / 2)]) ∧
    ((draw_clock_hands 500 3 0).map HandSpec.angle)[1]? = some 90 ∧
    ((draw_clock_hands 500 12 30).map HandSpec.angle)[1]? = some 15 ∧
    ((draw_clock_hands 500 0 30).map HandSpec.angle)[1]? = some 15 := by
  refine ⟨?_, ?_, ?_, ?_⟩
  · intro image_size hours minutes _ _
    simp [draw_clock_hands]
  · norm_num [draw_clock_hands]
  · norm_num [draw_clock_hands]
  · norm_num [draw_clock_hands]

/-- Witness for C7 at (image_size, hours, minutes) = (500, 3, 0). -/
theorem draw_clock_hand_angles_witness :
    (draw_clock_hands 500 3 0).map HandSpec.angle =
      [(0 : ℚ) * 6, ((3 % 12 : Nat) : ℚ) * 30 + (0 : ℚ) * (1 / 2)] :=
  draw_clock_hand_angles.1 500 3 0 (by decide) (by decide)

/-- Helper: under the ranges of the random primitives at `generator.py:336-352`
(`randint(1,3)`, `randint(0,2)`, `choice([0,30])`, `randint(0,3)`,
`randint(0,59)`, `randint(15,45)`), `_generate_time_delta` returns hours ≤ 3,
minutes ≤ 59, and never the zero delta. -/
theorem generate_time_delta_props (difficulty : String) (d : DeltaDraws)
    (he1 : 1 ≤ d.easyHoursDraw) (he2 : d.easyHoursDraw ≤ 3)
    (hm1 : d.mediumHoursDraw ≤ 2)
    (hm2 : d.mediumMinutesDraw = 0 ∨ d.mediumMinutesDraw = 30)
    (hh1 : d.hardHoursDraw ≤ 3) (hh2 : d.hardMinutesDraw ≤ 59)
    (hf1 : 15 ≤ d.hardFixupDraw) (hf2 : d.hardFixupDraw ≤ 45) :
    (generate_time_delta difficulty d).1 ≤ 3 ∧
    (generate_time_delta difficulty d).2 ≤ 59 ∧
    ¬((generate_time_delta difficulty d).1 = 0 ∧
      (generate_time_delta difficulty d).2 = 0) := by
  simp only [generate_time_delta]
  rcases hm2 with hm2 | hm2 <;> split_ifs <;> simp_all <;> omega

/-- C4: for every difficulty and every outcome of the random draws,
`_generate_time_delta` returns (hours, minutes) with hours ≥ 0,
minutes ∈ [0,59], and not both components zero. -/
theorem generate_time_delta_never_zero (difficulty : String) (d : DeltaDraws)
    (he1 : 1 ≤ d.easyHoursDraw) (he2 : d.easyHoursDraw ≤ 3)
    (hm1 : d.mediumHoursDraw ≤ 2)
    (hm2 : d.mediumMinutesDraw = 0 ∨ d.mediumMinutesDraw = 30)
    (hh1 : d.hardHoursDraw ≤ 3) (hh2 : d.hardMinutesDraw ≤ 59)
    (hf1 : 15 ≤ d.hardFixupDraw) (hf2 : d.hardFixupDraw ≤ 45) :
    0 ≤ (generate_time_delta difficulty d).1 ∧
    (generate_time_delta difficulty d).2 ≤ 59 ∧
    ¬((generate_time_delta difficulty d).1 = 0 ∧
      (generate_time_delta difficulty d).2 = 0) := by
  obtain ⟨-, h2, h3⟩ :=
    generate_time_delta_props difficulty d he1 he2 hm1 hm2 hh1 hh2 hf1 hf2
  exact ⟨Nat.zero_le _, h2, h3⟩

/-- Witness for C4: difficulty "hard" with every draw at its low end. -/
theorem generate_time_delta_never_zero_witness :
    0 ≤ (generate_time_delta "hard" ⟨1, 0, 0, 0, 0, 15⟩).1 ∧
    (generate_time_delta "hard" ⟨1, 0, 0, 0, 0, 15⟩).2 ≤ 59 ∧
    ¬((generate_time_delta "hard" ⟨1, 0, 0, 0, 0, 15⟩).1 = 0 ∧
      (generate_time_delta "hard" ⟨1, 0, 0, 0, 0, 15⟩).2 = 0) :=
  generate_time_delta_never_zero "hard" ⟨1, 0, 0, 0, 0, 15⟩
    (by decide) (by decide) (by decide) (Or.inl rfl)
    (by decide) (by decide) (by decide) (by decide)

/-- Helper: under the ranges of the random primitives at `generator.py:310-321`
(`randint(1,12)`, `choice` of the 5-minute grid, `randint(0,59)`),
`_generate_random_time` returns an hour in [1,12] and minutes in [0,59]. -/
theorem generate_random_time_bounds (difficulty : String) (d : TimeDraws)
    (ht1 : 1 ≤ d.hourDraw) (ht2 : d.hourDraw ≤ 12)
    (ht3 : d.mediumMinuteDraw ∈ fiveMinuteChoices)
    (ht4 : d.hardMinuteDraw ≤ 59) :
    1 ≤ (generate_random_time difficulty d).1 ∧
    (generate_random_time difficulty d).1 ≤ 12 ∧
    (generate_random_time difficulty d).2 ≤ 59 := by
  have hmed : d.mediumMinuteDraw ≤ 59 := by
    simp [fiveMinuteChoices] at ht3
    rcases ht3 with h | h | h | h | h | h | h | h | h | h | h | h <;> omega
  simp only [generate_random_time]
  split_ifs <;> simp_all

/-- C5: for every difficulty and every outcome of the random draws of
`_generate_random_time` and `_generate_time_delta`, the future time computed
by `_add_time` differs from the original time. -/
theorem future_time_ne_original (difficulty : String) (td : TimeDraws)
    (dd : DeltaDraws)
    (ht1 : 1 ≤ td.hourDraw) (ht2 : td.hourDraw ≤ 12)
    (ht3 : td.mediumMinuteDraw ∈ fiveMinuteChoices)
    (ht4 : td.hardMinuteDraw ≤ 59)
    (he1 : 1 ≤ dd.easyHoursDraw) (he2 : dd.easyHoursDraw ≤ 3)
    (hm1 : dd.mediumHoursDraw ≤ 2)
    (hm2 : dd.mediumMinutesDraw = 0 ∨ dd.mediumMinutesDraw = 30)
    (hh1 : dd.hardHoursDraw ≤ 3) (hh2 : dd.hardMinutesDraw ≤ 59)
    (hf1 : 15 ≤ dd.hardFixupDraw) (hf2 : dd.hardFixupDraw ≤ 45) :
    add_time (generate_random_time difficulty td).1
      (generate_random_time difficulty td).2
      (generate_time_delta difficulty dd).1
      (generate_time_delta difficulty dd).2 ≠
      generate_random_time difficulty td := by
  obtain ⟨hb1, hb2, hb3⟩ :=
    generate_random_time_bounds difficulty td ht1 ht2 ht3 ht4
  obtain ⟨hd1, hd2, hd3⟩ :=
    generate_time_delta_props difficulty dd he1 he2 hm1 hm2 hh1 hh2 hf1 hf2
  simp only [add_time, ne_eq, Prod.ext_iff, not_and]
  intro hhour hminute
  rw [not_and] at hd3
  omega

/-- Witness for C5: difficulty "easy", hour draw 12, delta draw 1 hour. -/
theorem future_time_ne_original_witness :
    add_time (generate_random_time "easy" ⟨12, 0, 0⟩).1
      (generate_random_time "easy" ⟨12, 0, 0⟩).2
      (generate_time_delta "easy" ⟨1, 0, 0, 0, 0, 15⟩).1
      (generate_time_delta "easy" ⟨1, 0, 0, 0, 0, 15⟩).2 ≠
      generate_random_time "easy" ⟨12, 0, 0⟩ :=
  future_time_ne_original "easy" ⟨12, 0, 0⟩ ⟨1, 0, 0, 0, 0, 15⟩
    (by decide) (by decide) (by decide) (by decide)
    (by decide) (by decide) (by decide) (Or.inl rfl)
    (by decide) (by decide) (by decide) (by decide)

/-- Helper: the task counters of `balancedGroups` form the contiguous range
starting at the initial counter (the counter is never reset per group). -/
theorem balancedGroups_map_snd (ds : List String) (base : Nat) (rem : Int)
    (c : Nat) :
    (balancedGroups ds base rem c).map Prod.snd =
      List.range' c (balancedGroups ds base rem c).length := by
  induction ds generalizing rem c with
  | nil => simp [balancedGroups]
  | cons d ds ih =>
    simp only [balancedGroups, List.map_append, List.map_map,
      List.length_append, List.length_map, List.length_range]
    rw [ih]
    have h1 : (Prod.snd ∘ fun i => (d, c + i)) = (c + ·) := rfl
    rw [h1, ← List.range'_eq_map_range, List.range'_append_1, Nat.add_comm]

/-- Helper: one difficulty group contributes `count` records matching its own
difficulty and none matching any other. -/
theorem filter_group_length (d e : String) (count c : Nat) :
    (((List.range count).map fun i => (d, c + i)).filter
      fun p => p.1 = e).length = if d = e then count else 0 := by
  rw [List.filter_map]
  by_cases hde : d = e
  · subst hde
    have h : ((fun p => decide (p.1 = d)) ∘ fun i => ((d : String), c + i)) =
        fun i => true := by
      funext i
      simp
    rw [h, if_pos rfl]
    simp
  · have h : ((fun p => decide (p.1 = e)) ∘ fun i => ((d : String), c + i)) =
        fun i => false := by
      funext i
      simp [hde]
    rw [h, if_neg hde]
    simp

/-- Helper: the balanced dataset has exactly `num_samples` records. -/
theorem generate_balanced_dataset_length (n : Nat) :
    (generate_balanced_dataset n).length = n := by
  simp only [generate_balanced_dataset, difficulties, List.length_cons,
    List.length_nil, balancedGroups, List.length_append, List.length_map,
    List.length_range]
  split_ifs <;> omega

/-- Helper: the task counters are 0,1,...,num_samples-1 in order. -/
theorem generate_balanced_dataset_ids (n : Nat) :
    (generate_balanced_dataset n).map Prod.snd = List.range n := by
  have h := balancedGroups_map_snd difficulties
    (n / difficulties.length) ((n % difficulties.length : Nat) : Int) 0
  calc (generate_balanced_dataset n).map Prod.snd
      = List.range' 0 (generate_balanced_dataset n).length := h
    _ = List.range' 0 n := by rw [generate_balanced_dataset_length]
    _ = List.range n := (List.range_eq_range' n).symm

/-- Helper: per-difficulty record counts: `num_samples // 3` per level, one
extra for the first `num_samples % 3` levels in order easy, medium, hard. -/
theorem generate_balanced_dataset_counts (n : Nat) :
    ((generate_balanced_dataset n).filter fun p => p.1 = "easy").length =
      n / 3 + (if 1 ≤ n % 3 then 1 else 0) ∧
    ((generate_balanced_dataset n).filter fun p => p.1 = "medium").length =
      n / 3 + (if 2 ≤ n % 3 then 1 else 0) ∧
    ((generate_balanced_dataset n).filter fun p => p.1 = "hard").length =
      n / 3 := by
  simp only [generate_balanced_dataset, difficulties, List.length_cons,
    List.length_nil, balancedGroups, List.filter_append, List.length_append,
    filter_group_length, List.filter_nil]
  simp
  refine ⟨?_, ?_, ?_⟩ <;> (try split_ifs) <;> omega

/-- C3: balanced generation produces exactly `num_samples` records,
`num_samples // 3` per difficulty with the first `num_samples % 3` levels (in
order easy, medium, hard) getting one extra; the task counters are a single
contiguous strictly increasing sequence 0..num_samples-1 across the groups;
at `num_samples = 10` the counts are easy 4, medium 3, hard 3 and the
zero-padded ids are 0000..0009. -/
theorem balanced_dataset_spec :
    (∀ n : Nat, (generate_balanced_dataset n).length = n) ∧
    (∀ n : Nat,
      ((generate_balanced_dataset n).filter fun p => p.1 = "easy").length =
        n / 3 + (if 1 ≤ n % 3 then 1 else 0) ∧
      ((generate_balanced_dataset n).filter fun p => p.1 = "medium").length =
        n / 3 + (if 2 ≤ n % 3 then 1 else 0) ∧
      ((generate_balanced_dataset n).filter fun p => p.1 = "hard").length =
        n / 3) ∧
    (∀ n : Nat, (generate_balanced_dataset n).map Prod.snd = List.range n) ∧
    ((generate_balanced_dataset 10).filter fun p => p.1 = "easy").length = 4 ∧
    ((generate_balanced_dataset 10).filter fun p => p.1 = "medium").length = 3 ∧
    ((generate_balanced_dataset 10).filter fun p => p.1 = "hard").length = 3 ∧
    (generate_balanced_dataset 10).map (fun p => padTaskId p.2) =
      ["0000", "0001", "0002", "0003", "0004",
       "0005", "0006", "0007", "0008", "0009"] :=
  ⟨generate_balanced_dataset_length, generate_balanced_dataset_counts,
   generate_balanced_dataset_ids, by decide, by decide, by decide, by decide⟩

/-- C1 counterexample: at concrete images the frame sequence built by
`_generate_video` has 85 frames (15+20+15+20+15), not 105. -/
theorem video_frame_count_counterexample :
    (generate_video_frames testImg testImg testImg).length ≠ 105 := by
  have h : (generate_video_frames testImg testImg testImg).length = 85 := rfl
  omega

/-- C1 (amended): every invocation of the frame-building step of
`_generate_video` produces exactly 85 frames, for all input images; the
configured video fps is never read by the frame-building step, so the count
is independent of it. -/
theorem video_frame_count (first_image final_image original_image : Img) :
    (generate_video_frames first_image final_image original_image).length
      = 85 := by
  simp only [generate_video_frames, List.length_append, List.length_map,
    List.length_range, List.length_replicate]

/-- Helper: `Image.blend` at alpha 0 is the first image. -/
theorem blendChan_zero (p q : ℤ) : blendChan 0 p q = p := by
  simp [blendChan]

/-- Helper: `Image.blend` at alpha 1 is the second image, channelwise. -/
theorem blendChan_one (p q : ℤ) : blendChan 1 p q = q := by
  simp [blendChan]

/-- Helper: blending with alpha 0 returns the "from" image exactly. -/
theorem blend_zero (a b : Img) : Image.blend a b 0 = a := by
  refine Img.ext rfl rfl ?_
  funext x y
  simp [Image.blend, blendChan_zero]

/-- Helper: blending two same-size images with alpha 1 returns the "to"
image exactly. -/
theorem blend_one (a b : Img) (hw : a.width = b.width)
    (hh : a.height = b.height) : Image.blend a b 1 = b := by
  refine Img.ext hw hh ?_
  funext x y
  simp [Image.blend, blendChan_one]

/-- Helper: the crossfade alpha of frame i is i/19. -/
theorem crossfadeAlpha_eq (i : Nat) : crossfadeAlpha i = (i : ℚ) / 19 := by
  norm_num [crossfadeAlpha]

/-- Helper: with all three images the same size (as produced by the renderer
and the horizontal flip), neither resize branch fires and the frame sequence
is the plain five-segment concatenation. -/
theorem generate_video_frames_eq (a b c : Img)
    (h1 : a.size = b.size) (h2 : b.size = c.size) :
    generate_video_frames a c b =
      List.replicate 15 a ++
      (List.range 20).map (fun i => Image.blend a b (crossfadeAlpha i)) ++
      List.replicate 15 b ++
      (List.range 20).map (fun i => Image.blend b c (crossfadeAlpha i)) ++
      List.replicate 15 c := by
  simp [generate_video_frames, h1, h2]

/-- C8: in both crossfade phases the i-th crossfade frame (i = 0..19) is the
blend of the phase's "from" and "to" images with alpha exactly i/19; frame 0
of each phase is the pure "from" image and frame 19 is the pure "to" image
(frames 15 and 34 for the mirrored→original phase, frames 50 and 69 for the
original→future phase). -/
theorem crossfade_alpha_schedule (a b c : Img)
    (h1 : a.size = b.size) (h2 : b.size = c.size) :
    (∀ i : Nat, i < 20 →
      (generate_video_frames a c b)[15 + i]? =
        some (Image.blend a b ((i : ℚ) / 19)) ∧
      (generate_video_frames a c b)[50 + i]? =
        some (Image.blend b c ((i : ℚ) / 19))) ∧
    (generate_video_frames a c b)[15]? = some a ∧
    (generate_video_frames a c b)[34]? = some b ∧
    (generate_video_frames a c b)[50]? = some b ∧
    (generate_video_frames a c b)[69]? = some c := by
  have hw : a.width = b.width := congrArg Prod.fst h1
  have hh : a.height = b.height := congrArg Prod.snd h1
  have hw2 : b.width = c.width := congrArg Prod.fst h2
  have hh2 : b.height = c.height := congrArg Prod.snd h2
  have hfr := generate_video_frames_eq a b c h1 h2
  have key1 : ∀ i, i < 20 →
      (generate_video_frames a c b)[15 + i]? =
        some (Image.blend a b (crossfadeAlpha i)) := by
    intro i hi
    rw [hfr, List.append_assoc, List.append_assoc, List.append_assoc,
      List.getElem?_append_right (by simp)]
    have hidx : 15 + i - (List.replicate 15 a).length = i := by simp
    rw [hidx, List.getElem?_append_left (by simpa using hi)]
    simp [List.getElem?_range hi]
  have key2 : ∀ i, i < 20 →
      (generate_video_frames a c b)[50 + i]? =
        some (Image.blend b c (crossfadeAlpha i)) := by
    intro i hi
    rw [hfr, List.append_assoc, List.append_assoc, List.append_assoc,
      List.getElem?_append_right (by simp only [List.length_replicate]; omega)]
    have hidx : 50 + i - (List.replicate 15 a).length = 35 + i := by
      simp only [List.length_replicate]
      omega
    rw [hidx, List.getElem?_append_right (by simp; omega)]
    have hidx2 : 35 + i -
        ((List.range 20).map
          (fun i => Image.blend a b (crossfadeAlpha i))).length = 15 + i := by
      simp only [List.length_map, List.length_range]
      omega
    rw [hidx2, List.getElem?_append_right (by simp)]
    have hidx3 : 15 + i - (List.replicate 15 b).length = i := by simp
    rw [hidx3, List.getElem?_append_left (by simpa using hi)]
    simp [List.getElem?_range hi]
  refine ⟨fun i hi => ⟨?_, ?_⟩, ?_, ?_, ?_, ?_⟩
  · rw [key1 i hi, crossfadeAlpha_eq]
  · rw [key2 i hi, crossfadeAlpha_eq]
  · have h0 := key1 0 (by norm_num)
    norm_num at h0
    rw [h0, show crossfadeAlpha 0 = 0 from by norm_num [crossfadeAlpha],
      blend_zero]
  · have h19 := key1 19 (by norm_num)
    norm_num at h19
    rw [h19, show crossfadeAlpha 19 = 1 from by norm_num [crossfadeAlpha],
      blend_one a b hw hh]
  · have h0 := key2 0 (by norm_num)
    norm_num at h0
    rw [h0, show crossfadeAlpha 0 = 0 from by norm_num [crossfadeAlpha],
      blend_zero]
  · have h19 := key2 19 (by norm_num)
    norm_num at h19
    rw [h19, show crossfadeAlpha 19 = 1 from by norm_num [crossfadeAlpha],
      blend_one b c hw2 hh2]

/-- Witness for C8 at the concrete images `testImg`, `testImgB`, `testImg`
(all 2×2). -/
theorem crossfade_alpha_schedule_witness :
    testImg.size = testImgB.size ∧ testImgB.size = testImg.size ∧
    (generate_video_frames testImg testImg testImgB)[15]? = some testImg :=
  ⟨rfl, rfl, (crossfade_alpha_schedule testImg testImgB testImg rfl rfl).2.1⟩

/-- C9: the horizontal flip that produces the mirrored clock image preserves
the image dimensions, and flipping twice restores every pixel of the raster. -/
theorem mirrored_flip_spec (img : Img) :
    (flipLeftRight img).size = img.size ∧
    ∀ x y, x < img.width → y < img.height →
      (flipLeftRight (flipLeftRight img)).px x y = img.px x y := by
  refine ⟨rfl, ?_⟩
  intro x y hx hy
  simp only [flipLeftRight]
  have hxx : img.width - 1 - (img.width - 1 - x) = x := by omega
  rw [hxx]

/-- Witness for C9 at the concrete 2×2 image `testImgB`. -/
theorem mirrored_flip_spec_witness :
    (flipLeftRight testImgB).size = testImgB.size ∧
    (flipLeftRight (flipLeftRight testImgB)).px 1 0 = testImgB.px 1 0 :=
  ⟨(mirrored_flip_spec testImgB).1,
   (mirrored_flip_spec testImgB).2 1 0 (by decide) (by decide)⟩

/-- C10: with video generation enabled, when the encoder fails on every input
(`create_video_from_frames` returns a falsy result), `generate_task_pair`
still returns a complete `TaskPair` whose `ground_truth_video` is `None`. -/
theorem encoder_failure_yields_no_video (config : TaskConfig) (enc : Encoder)
    (render : Nat → Nat → Img) (draws : TaskDraws) (task_id : String)
    (hvid : config.generate_videos = true)
    (hfail : ∀ frames path, enc frames path = none) :
    (generate_task_pair config (some enc) render draws
      task_id).ground_truth_video = none ∧
    (generate_task_pair config (some enc) render draws task_id).task_id =
      task_id ∧
    (generate_task_pair config (some enc) render draws task_id).domain =
      config.domain := by
  refine ⟨?_, rfl, rfl⟩
  simp [generate_task_pair, generate_video, hvid, hfail]

/-- Witness for C10 with a concrete config, renderer, draws, and an encoder
that always fails. -/
theorem encoder_failure_yields_no_video_witness :
    (generate_task_pair testConfig (some failEncoder) (fun _ _ => testImg)
      ⟨"easy", ⟨1, 0, 0⟩, ⟨1, 0, 0, 0, 0, 15⟩, 0⟩
      "mirror_clock_0000").ground_truth_video = none ∧
    (generate_task_pair testConfig (some failEncoder) (fun _ _ => testImg)
      ⟨"easy", ⟨1, 0, 0⟩, ⟨1, 0, 0, 0, 0, 15⟩, 0⟩
      "mirror_clock_0000").task_id = "mirror_clock_0000" ∧
    (generate_task_pair testConfig (some failEncoder) (fun _ _ => testImg)
      ⟨"easy", ⟨1, 0, 0⟩, ⟨1, 0, 0, 0, 0, 15⟩, 0⟩
      "mirror_clock_0000").domain = testConfig.domain :=
  encoder_failure_yields_no_video testConfig failEncoder (fun _ _ => testImg)
    ⟨"easy", ⟨1, 0, 0⟩, ⟨1, 0, 0, 0, 0, 15⟩, 0⟩ "mirror_clock_0000"
    rfl (fun _ _ => rfl)

end MirrorClock
